import Mathlib

/-!
Shallow embedding of the Test Execution Engine of this repository
(`InstrumentTester` in `Keysight_Agilent_RS232_test.py`) and proofs of the
behavioural claims about it.

Modelling conventions, kept uniform through the file:
* The instrument link (`self.instrument`, a VISA session) is modelled as an
  oracle `Device`: `resp n` is the outcome of the n-th VISA call of the run
  (`Except.ok s` = the call succeeded and, for a query, returned the reply
  `s`; `Except.error e` = the call raised a fault whose text is `e`).
  `pos` is the cursor (how many calls were issued so far) and `sent` logs the
  command strings issued, in order.  Both writes and queries consume one
  outcome, exactly one per VISA call in the Python source.
* `qtime n` is the wall-clock duration of the n-th call, used only by the
  Response Time check; wall-clock timing is environmental, so it is part of
  the oracle.  `TestResult.execution_time` and `timestamp` of the Python
  dataclass are pure wall-clock bookkeeping that no claim mentions and are
  elided from the embedded record.
* Python float arithmetic on the small ratios appearing here
  (`successful/10`, `compliant/6`, `int((i+1)*100/total)`) is exact or
  agrees with exact rational arithmetic for every realistic queue length,
  so ratios are embedded as `ℚ` and the progress truncation as `Nat`
  floor division.
* `time.sleep` calls and the VISA timeout assignment have no observable
  effect on the values modelled here and are elided.
-/

/-- Outcome of one VISA call: `Except.ok s` is a successful call (reply `s`
for a query, ignored for a write), `Except.error e` is a raised fault with
message text `e`. -/
abbrev Outcome := Except String String

/-- The instrument link together with the trace bookkeeping of the current
run: the oracle of call outcomes, the call-duration oracle, the cursor of
the next call, and the log of command strings sent so far. -/
structure Device where
  resp : Nat → Outcome
  qtime : Nat → ℚ
  pos : Nat
  sent : List String

/-- One VISA call (`instrument.write` or `instrument.query`): yields the
next oracle outcome, advances the cursor and logs the command. -/
def Device.call (d : Device) (cmd : String) : Outcome × Device :=
  (d.resp d.pos, Device.mk d.resp d.qtime (d.pos + 1) (d.sent ++ [cmd]))

/-- The `TestResult` dataclass (wall-clock fields elided, see the file
header). -/
structure TestResult where
  test_name : String
  passed : Bool
  message : String
deriving DecidableEq

/-- Python's whitespace set for `str.strip()`. -/
def isPySpace (c : Char) : Bool :=
  c == ' ' || c == '\t' || c == '\n' || c == '\r' || c == '\x0b' || c == '\x0c'

/-- Python `s.strip()`. -/
def pyStrip (s : String) : String :=
  String.mk (((s.data.dropWhile isPySpace).reverse.dropWhile isPySpace).reverse)

/-- Python truthiness of `s.strip()` (`if response.strip():`). -/
def pyNonEmpty (s : String) : Bool :=
  !(pyStrip s).isEmpty

/-- Python `s.startswith(pre)` (character-list prefix test; the Substring
based core function does not reduce in the kernel). -/
def pyStartsWith (s pre : String) : Bool :=
  pre.data.isPrefixOf s.data

/-- Python `s.endswith(suf)` (character-list suffix test). -/
def pyEndsWith (s suf : String) : Bool :=
  suf.data.isSuffixOf s.data

/-- Python `needle in hay` on lists of characters. -/
def containsSub (hay needle : List Char) : Bool :=
  if needle.isPrefixOf hay then true
  else
    match hay with
    | [] => false
    | _ :: t => containsSub t needle

/-- Python `f"{q:.1%}"`: `q` rendered as a percentage with one decimal
place (numeric formatting abbreviated to rational rounding). -/
def fmtPct1 (q : ℚ) : String :=
  let t : Nat := (round (q * 1000)).toNat
  toString (t / 10) ++ "." ++ toString (t % 10) ++ "%"

/-- Python `f"{q:.3f}"` (numeric formatting abbreviated to rational
rounding). -/
def fmtSec3 (q : ℚ) : String :=
  let t : Nat := (round (q * 1000)).toNat
  let frac := t % 1000
  let pad := if frac < 10 then "00" else if frac < 100 then "0" else ""
  toString (t / 1000) ++ "." ++ pad ++ toString frac

/-- Embeds `InstrumentTester._test_connection`. -/
def test_connection (d : Device) : TestResult × Device :=
  let c := d.call "*IDN?"
  match c.1 with
  | Except.error e =>
      (TestResult.mk "Connection Test" false ("Connection failed: " ++ e), c.2)
  | Except.ok response =>
      (TestResult.mk "Connection Test" (pyNonEmpty response)
        (if pyNonEmpty response then
           "Connected successfully. Response: " ++ response.take 50 ++ "..."
         else "No response"), c.2)

/-- Brand substrings recognised by `_test_identification`. -/
def brandList : List String := ["agilent", "keysight", "hewlett-packard", "hp"]

/-- Embeds `InstrumentTester._test_identification`. -/
def test_identification (d : Device) : TestResult × Device :=
  let c := d.call "*IDN?"
  match c.1 with
  | Except.error e =>
      (TestResult.mk "Identification" false ("Failed: " ++ e), c.2)
  | Except.ok r0 =>
      let idn := pyStrip r0
      let isAK := brandList.any (fun b => containsSub idn.toLower.data b.toLower.data)
      (TestResult.mk "Identification" (!idn.isEmpty)
        (if isAK then "ID: " ++ idn
         else "ID: " ++ idn ++ " (Warning: Not recognized as Agilent/Keysight device)"), c.2)

/-- Embeds `InstrumentTester._test_self_test`: write `*TST`, then query `*TST?`;
a fault on either call is caught by the method's own handler. -/
def test_self_test (d : Device) : TestResult × Device :=
  let c1 := d.call "*TST"
  match c1.1 with
  | Except.error e => (TestResult.mk "Self Test" false ("Failed: " ++ e), c1.2)
  | Except.ok _ =>
      let c2 := c1.2.call "*TST?"
      match c2.1 with
      | Except.error e => (TestResult.mk "Self Test" false ("Failed: " ++ e), c2.2)
      | Except.ok r0 =>
          let result := pyStrip r0
          (TestResult.mk "Self Test" (result == "0")
            ("Self-test result: " ++ result ++ " ("
              ++ (if result == "0" then "PASS" else "FAIL") ++ ")"), c2.2)

/-- Embeds `InstrumentTester._test_reset`. -/
def test_reset (d : Device) : TestResult × Device :=
  let c1 := d.call "*RST"
  match c1.1 with
  | Except.error e => (TestResult.mk "Reset Command" false ("Failed: " ++ e), c1.2)
  | Except.ok _ =>
      let c2 := c1.2.call "*IDN?"
      match c2.1 with
      | Except.error e => (TestResult.mk "Reset Command" false ("Failed: " ++ e), c2.2)
      | Except.ok r0 =>
          let passed := !(pyStrip r0).isEmpty
          (TestResult.mk "Reset Command" passed
            ("Reset " ++ (if passed then "successful" else "failed")), c2.2)

/-- The error-queue drain loop of `_test_error_status`: up to `n` queries of
`SYST:ERR?`, collecting stripped responses, stopping at the first fault or
at the first response with a no-error prefix (`0,` or `+0,`). -/
def drainErrors (d : Device) : Nat → List String × Device
  | 0 => ([], d)
  | n + 1 =>
      let c := d.call "SYST:ERR?"
      match c.1 with
      | Except.error _ => ([], c.2)
      | Except.ok s =>
          let e := pyStrip s
          if pyStartsWith e "0," || pyStartsWith e "+0," then ([], c.2)
          else
            let r := drainErrors c.2 n
            (e :: r.1, r.2)

/-- Embeds `InstrumentTester._test_error_status`: clear status with `*CLS` (a fault
there is caught by the method's outer handler), then drain the error queue
up to 10 times. -/
def test_error_status (d : Device) : TestResult × Device :=
  let c := d.call "*CLS"
  match c.1 with
  | Except.error e => (TestResult.mk "Error Status" false ("Failed: " ++ e), c.2)
  | Except.ok _ =>
      let r := drainErrors c.2 10
      (TestResult.mk "Error Status" r.1.isEmpty
        (if r.1.isEmpty then "No errors found"
         else "Errors: " ++ String.intercalate "; " (r.1.take 3)), r.2)

/-- Embeds `InstrumentTester._test_status_registers`. -/
def test_status_registers (d : Device) : TestResult × Device :=
  let c1 := d.call "*STB?"
  match c1.1 with
  | Except.error e => (TestResult.mk "Status Registers" false ("Failed: " ++ e), c1.2)
  | Except.ok s1 =>
      let c2 := c1.2.call "*ESR?"
      match c2.1 with
      | Except.error e => (TestResult.mk "Status Registers" false ("Failed: " ++ e), c2.2)
      | Except.ok s2 =>
          (TestResult.mk "Status Registers" true
            ("STB: " ++ pyStrip s1 ++ ", ESR: " ++ pyStrip s2), c2.2)

/-- Embeds `InstrumentTester._test_operation_complete`. -/
def test_operation_complete (d : Device) : TestResult × Device :=
  let c1 := d.call "*OPC"
  match c1.1 with
  | Except.error e => (TestResult.mk "Operation Complete" false ("Failed: " ++ e), c1.2)
  | Except.ok _ =>
      let c2 := c1.2.call "*OPC?"
      match c2.1 with
      | Except.error e => (TestResult.mk "Operation Complete" false ("Failed: " ++ e), c2.2)
      | Except.ok r0 =>
          let opc := pyStrip r0
          (TestResult.mk "Operation Complete" (opc == "1") ("OPC result: " ++ opc), c2.2)

/-- The 5-query measurement loop of `_test_response_time`; the first
faulting query aborts the whole check (caught by the method's handler). -/
def respTimeLoop (d : Device) (times : List ℚ) : Nat → Except (String × Device) (List ℚ × Device)
  | 0 => Except.ok (times, d)
  | n + 1 =>
      let t := d.qtime d.pos
      let c := d.call "*IDN?"
      match c.1 with
      | Except.error e => Except.error (e, c.2)
      | Except.ok _ => respTimeLoop c.2 (times ++ [t]) n

/-- Embeds `InstrumentTester._test_response_time`. -/
def test_response_time (d : Device) : TestResult × Device :=
  match respTimeLoop d [] 5 with
  | Except.error (e, d1) => (TestResult.mk "Response Time" false ("Failed: " ++ e), d1)
  | Except.ok (times, d1) =>
      let avg := times.sum / 5
      let mx := times.foldr max 0
      (TestResult.mk "Response Time" (decide (avg < 1))
        ("Avg: " ++ fmtSec3 avg ++ "s, Max: " ++ fmtSec3 mx ++ "s"), d1)

/-- The fixed 4-command rotation of `_test_communication_stability`. -/
def stabilityCommands : List String := ["*IDN?", "*STB?", "*ESR?", "*OPC?"]

/-- The query loop of `_test_communication_stability`: the last argument is
the number of remaining iterations; `i` is the loop index, `succ` the count
of successful commands so far.  A per-query fault is swallowed
(`except: pass`) and counted unsuccessful. -/
def stabLoop (d : Device) (i succ : Nat) : Nat → Nat × Device
  | 0 => (succ, d)
  | n + 1 =>
      let c := d.call (stabilityCommands.getD (i % stabilityCommands.length) "")
      let succ1 :=
        match c.1 with
        | Except.ok s => if pyNonEmpty s then succ + 1 else succ
        | Except.error _ => succ
      stabLoop c.2 (i + 1) succ1 n

/-- Embeds `InstrumentTester._test_communication_stability`. -/
def test_communication_stability (d : Device) : TestResult × Device :=
  let sr := stabLoop d 0 0 10
  let rate : ℚ := sr.1 / 10
  (TestResult.mk "Communication Stability" (decide (rate ≥ 9 / 10))
    ("Success rate: " ++ fmtPct1 rate ++ " (" ++ toString sr.1 ++ "/10)"), sr.2)

/-- The mandatory SCPI commands of `_test_scpi_compliance`. -/
def mandatory_commands : List String := ["*IDN?", "*RST", "*CLS", "*ESR?", "*STB?", "*OPC?"]

/-- The command loop of `_test_scpi_compliance`: a query command is
compliant when its reply is truthy after stripping; a write command is
compliant when the write call succeeds; a per-command fault is swallowed
(`except: pass`) and the command counted non-compliant. -/
def scpiLoop (d : Device) (compliant : Nat) : List String → Nat × Device
  | [] => (compliant, d)
  | cmd :: rest =>
      let c := d.call cmd
      let c1 :=
        if pyEndsWith cmd "?" then
          match c.1 with
          | Except.ok s => if pyNonEmpty s then compliant + 1 else compliant
          | Except.error _ => compliant
        else
          match c.1 with
          | Except.ok _ => compliant + 1
          | Except.error _ => compliant
      scpiLoop c.2 c1 rest

/-- Embeds `InstrumentTester._test_scpi_compliance` (`total_commands` always ends
at 6, the length of `mandatory_commands`). -/
def test_scpi_compliance (d : Device) : TestResult × Device :=
  let sr := scpiLoop d 0 mandatory_commands
  let rate : ℚ := sr.1 / 6
  (TestResult.mk "SCPI Compliance" (decide (rate ≥ 4 / 5))
    ("SCPI compliance: " ++ fmtPct1 rate ++ " (" ++ toString sr.1 ++ "/6)"), sr.2)

/-- A per-check body as seen by the `_execute_test` boundary: it may finish
with a result, or a fault may escape it (`Except.error` carries the fault
text and the link state at that point).  Every concrete check body of this
program catches its faults internally, so each embeds as an `Except.ok`
body, but the boundary itself is defined for any body. -/
abbrev CheckBody := Device → Except (String × Device) (TestResult × Device)

/-- Lift a total check body to a `CheckBody`. -/
def asBody (f : Device → TestResult × Device) : CheckBody :=
  fun d => Except.ok (f d)

/-- The name-dispatch inside `_execute_test`'s `try`: the known checks, and
the `Unknown test` fallback for any other identifier. -/
def check_body (test_name : String) : CheckBody :=
  if test_name = "Connection Test" then asBody test_connection
  else if test_name = "Identification" then asBody test_identification
  else if test_name = "Self Test" then asBody test_self_test
  else if test_name = "Reset Command" then asBody test_reset
  else if test_name = "Error Status" then asBody test_error_status
  else if test_name = "Status Registers" then asBody test_status_registers
  else if test_name = "Operation Complete" then asBody test_operation_complete
  else if test_name = "Response Time" then asBody test_response_time
  else if test_name = "Communication Stability" then asBody test_communication_stability
  else if test_name = "SCPI Compliance" then asBody test_scpi_compliance
  else asBody (fun d => (TestResult.mk test_name false "Unknown test", d))

/-- The `try/except` boundary of `InstrumentTester._execute_test`: a fault
escaping the body is converted into a failed result with message
`Test failed: <cause>`; the boundary itself is total, so exactly one
`TestResult` comes back for every execution. -/
def execute_body (test_name : String) (body : CheckBody) (d : Device) : TestResult × Device :=
  match body d with
  | Except.ok rd => rd
  | Except.error (e, d1) => (TestResult.mk test_name false ("Test failed: " ++ e), d1)

/-- Embeds `InstrumentTester._execute_test`: the boundary applied to the dispatched
body. -/
def execute_test (test_name : String) (d : Device) : TestResult × Device :=
  execute_body test_name (check_body test_name) d

/-- The identifiers `_execute_test` dispatches on (the ten known checks). -/
def knownTests : List String :=
  ["Connection Test", "Identification", "Self Test", "Reset Command", "Error Status",
   "Status Registers", "Operation Complete", "Response Time",
   "Communication Stability", "SCPI Compliance"]

/-- The Qt signals emitted by the worker during a run (`test_started`,
`test_completed`, `progress_updated`; `log_message` is never emitted by
`InstrumentTester.run`). -/
inductive Event where
  | test_started (name : String)
  | test_completed (result : TestResult)
  | progress_updated (progress : Nat)
deriving DecidableEq

/-- What a whole run produces: its emitted event sequence, whether
`open_resource` was reached and succeeded, and whether `_cleanup` ran. -/
structure RunOutput where
  events : List Event
  opened : Bool
  cleanup : Bool
deriving DecidableEq

/-- The per-check loop of `InstrumentTester.run`: `total` is
`len(self.tests_to_run)`, `i` the enumeration index.  After each check it
emits `test_started`, `test_completed` and `progress_updated` with
`int((i + 1) * 100 / total_tests)` — truncating division, embedded as `Nat`
floor division (exact for every realistic queue length, see the file
header). -/
def runLoop (total : Nat) : Nat → List String → Device → List Event × Device
  | _, [], d => ([], d)
  | i, t :: rest, d =>
      let rd := execute_test t d
      let tail := runLoop total (i + 1) rest rd.2
      (Event.test_started t :: Event.test_completed rd.1
         :: Event.progress_updated ((i + 1) * 100 / total) :: tail.1, tail.2)

/-- Embeds `InstrumentTester.run`: an empty queue returns before the `try`, so
neither the link open nor `_cleanup` happens; otherwise the link is opened
(`link` is the outcome of `pyvisa.ResourceManager()` plus `open_resource`),
an open failure is converted to the single synthetic `Connection` result,
and both branches funnel through the `finally: self._cleanup()`. -/
def run (tests : List String) (link : Except String Device) : RunOutput :=
  if tests.isEmpty then RunOutput.mk [] false false
  else
    match link with
    | Except.error e =>
        RunOutput.mk
          [Event.test_completed (TestResult.mk "Connection" false ("Failed to connect: " ++ e))]
          false true
    | Except.ok d => RunOutput.mk (runLoop tests.length 0 tests d).1 true true

/-- Whether an outcome is a successful call with a truthy (non-empty after
stripping) reply — what the stability and compliance loops count. -/
def isSuccOutcome (o : Outcome) : Bool :=
  match o with
  | Except.ok s => pyNonEmpty s
  | Except.error _ => false

/-- Whether an outcome is a successful call at all. -/
def isOkOutcome (o : Outcome) : Bool :=
  match o with
  | Except.ok _ => true
  | Except.error _ => false

/-- Declarative count, straight off the oracle, of the truthy replies among
the `n` calls starting at position `start`. -/
def succCountFrom (resp : Nat → Outcome) (start : Nat) : Nat → Nat
  | 0 => 0
  | n + 1 => (if isSuccOutcome (resp start) then 1 else 0) + succCountFrom resp (start + 1) n

/-- The command strings the stability loop issues: `n` commands starting at
loop index `i`, cycling through `stabilityCommands`. -/
def cmdCycleFrom (i : Nat) : Nat → List String
  | 0 => []
  | n + 1 => stabilityCommands.getD (i % stabilityCommands.length) "" :: cmdCycleFrom (i + 1) n

/-- Declarative form of the error-queue drain, straight off the oracle: the
stripped error strings collected before the loop stops (first fault or first
no-error-prefixed response, at most `n` queries). -/
def errQueueDrain (resp : Nat → Outcome) (start : Nat) : Nat → List String
  | 0 => []
  | n + 1 =>
      match resp start with
      | Except.error _ => []
      | Except.ok s =>
          let e := pyStrip s
          if pyStartsWith e "0," || pyStartsWith e "+0," then []
          else e :: errQueueDrain resp (start + 1) n

/-- Declarative count, straight off the oracle, of the commands the SCPI
compliance loop counts compliant: a query command when its reply is truthy,
a write command when the write call succeeds. -/
def scpiCompliantFrom (resp : Nat → Outcome) (start : Nat) : List String → Nat
  | [] => 0
  | cmd :: rest =>
      (if pyEndsWith cmd "?" then (if isSuccOutcome (resp start) then 1 else 0)
       else (if isOkOutcome (resp start) then 1 else 0))
      + scpiCompliantFrom resp (start + 1) rest

/-- The compliance count exactly as claim C7 words it: a query command is
compliant when its reply is non-empty after stripping, and a write command
is counted compliant unconditionally.  Stated from the claim's words, to be
compared against the code's count. -/
def claimC7compliant (resp : Nat → Outcome) (start : Nat) : List String → Nat
  | [] => 0
  | cmd :: rest =>
      (if pyEndsWith cmd "?" then (if isSuccOutcome (resp start) then 1 else 0) else 1)
      + claimC7compliant resp (start + 1) rest

/-- The three events the run loop emits for one executed check, in order. -/
def checkBlock (t : String) (r : TestResult) (p : Nat) : List Event :=
  [Event.test_started t, Event.test_completed r, Event.progress_updated p]

/-- Recogniser for `test_completed` events. -/
def isCompletedEvent (ev : Event) : Bool :=
  match ev with
  | Event.test_completed _ => true
  | _ => false

/-- Recogniser for `test_started` events. -/
def isStartedEvent (ev : Event) : Bool :=
  match ev with
  | Event.test_started _ => true
  | _ => false

/-- The values carried by the `progress_updated` events of a trace, in
order. -/
def progressEvents (evs : List Event) : List Nat :=
  evs.filterMap (fun ev =>
    match ev with
    | Event.progress_updated p => some p
    | _ => none)

/-- A concrete quiet device: every call succeeds with an empty reply. -/
def dev0 : Device :=
  Device.mk (fun _ => Except.ok "") (fun _ => 0) 0 []

/-- A concrete device on which every call faults — in particular the very
first call of the Error Status check, the `*CLS` clear-status write. -/
def devCLSfault : Device :=
  Device.mk (fun _ => Except.error "comm lost") (fun _ => 0) 0 []

/-- A concrete device whose every reply is the no-error response
`+0,"No error"`. -/
def devNoErr : Device :=
  Device.mk (fun _ => Except.ok "+0,\"No error\"") (fun _ => 0) 0 []

/-- A concrete device for the SCPI compliance check: every query succeeds
with a non-empty reply, but both write commands (`*RST`, call 1, and `*CLS`,
call 2) fault. -/
def devSCPI : Device :=
  Device.mk (fun n => if n = 1 ∨ n = 2 then Except.error "bus error" else Except.ok "X")
    (fun _ => 0) 0 []

/-- The first component of a VISA call is the oracle outcome at the
cursor. -/
theorem Device.call_fst (d : Device) (cmd : String) : (d.call cmd).1 = d.resp d.pos := rfl

/-- A VISA call leaves the outcome oracle unchanged. -/
theorem Device.call_resp (d : Device) (cmd : String) : (d.call cmd).2.resp = d.resp := rfl

/-- A VISA call leaves the duration oracle unchanged. -/
theorem Device.call_qtime (d : Device) (cmd : String) : (d.call cmd).2.qtime = d.qtime := rfl

/-- A VISA call advances the cursor by one. -/
theorem Device.call_pos (d : Device) (cmd : String) : (d.call cmd).2.pos = d.pos + 1 := rfl

/-- A VISA call appends its command to the log. -/
theorem Device.call_sent (d : Device) (cmd : String) :
    (d.call cmd).2.sent = d.sent ++ [cmd] := rfl

/-- The stability loop realises the declarative count and command cycle:
its success counter adds `succCountFrom`, it consumes exactly `n` outcomes
and sends exactly the cycled commands, and it leaves the oracle unchanged. -/
theorem stabLoop_spec (n : Nat) : ∀ (d : Device) (i succ : Nat),
    (stabLoop d i succ n).1 = succ + succCountFrom d.resp d.pos n
    ∧ (stabLoop d i succ n).2.pos = d.pos + n
    ∧ (stabLoop d i succ n).2.sent = d.sent ++ cmdCycleFrom i n
    ∧ (stabLoop d i succ n).2.resp = d.resp := by
  induction n with
  | zero =>
      intro d i succ
      simp [stabLoop, succCountFrom, cmdCycleFrom]
  | succ n ih =>
      intro d i succ
      cases hres : d.resp d.pos with
      | ok s =>
          obtain ⟨h1, h2, h3, h4⟩ :=
            ih ((d.call (stabilityCommands.getD (i % stabilityCommands.length) "")).2)
              (i + 1) (if pyNonEmpty s then succ + 1 else succ)
          refine ⟨?_, ?_, ?_, ?_⟩ <;>
            simp only [stabLoop, Device.call_fst, hres, h1, h2, h3, h4,
              Device.call_resp, Device.call_pos, Device.call_sent,
              succCountFrom, cmdCycleFrom, isSuccOutcome,
              List.append_assoc, List.singleton_append]
          · cases pyNonEmpty s <;> simp <;> omega
          · omega
      | error e =>
          obtain ⟨h1, h2, h3, h4⟩ :=
            ih ((d.call (stabilityCommands.getD (i % stabilityCommands.length) "")).2)
              (i + 1) succ
          refine ⟨?_, ?_, ?_, ?_⟩ <;>
            simp only [stabLoop, Device.call_fst, hres, h1, h2, h3, h4,
              Device.call_resp, Device.call_pos, Device.call_sent,
              succCountFrom, cmdCycleFrom, isSuccOutcome,
              List.append_assoc, List.singleton_append]
          · simp <;> omega
          · omega

/-- The SCPI compliance loop realises the declarative count: its counter
adds `scpiCompliantFrom`, it sends exactly the given commands and leaves the
oracle unchanged. -/
theorem scpiLoop_spec (cmds : List String) : ∀ (d : Device) (compliant : Nat),
    (scpiLoop d compliant cmds).1 = compliant + scpiCompliantFrom d.resp d.pos cmds
    ∧ (scpiLoop d compliant cmds).2.pos = d.pos + cmds.length
    ∧ (scpiLoop d compliant cmds).2.sent = d.sent ++ cmds
    ∧ (scpiLoop d compliant cmds).2.resp = d.resp := by
  induction cmds with
  | nil =>
      intro d compliant
      simp [scpiLoop, scpiCompliantFrom]
  | cons cmd rest ih =>
      intro d compliant
      by_cases hq : pyEndsWith cmd "?" = true
      · cases hres : d.resp d.pos with
        | ok s =>
            cases hps : pyNonEmpty s with
            | true =>
                obtain ⟨h1, h2, h3, h4⟩ := ih ((d.call cmd).2) (compliant + 1)
                simp only [Device.call_resp, Device.call_pos, Device.call_sent] at h1 h2 h3 h4
                refine ⟨?_, ?_, ?_, ?_⟩ <;>
                  simp [scpiLoop, Device.call_fst, Device.call_resp, Device.call_pos,
                    Device.call_sent, hres, hq, hps, h1, h2, h3, h4,
                    scpiCompliantFrom, isSuccOutcome, isOkOutcome] <;>
                  omega
            | false =>
                obtain ⟨h1, h2, h3, h4⟩ := ih ((d.call cmd).2) compliant
                simp only [Device.call_resp, Device.call_pos, Device.call_sent] at h1 h2 h3 h4
                refine ⟨?_, ?_, ?_, ?_⟩ <;>
                  simp [scpiLoop, Device.call_fst, Device.call_resp, Device.call_pos,
                    Device.call_sent, hres, hq, hps, h1, h2, h3, h4,
                    scpiCompliantFrom, isSuccOutcome, isOkOutcome] <;>
                  omega
        | error e =>
            obtain ⟨h1, h2, h3, h4⟩ := ih ((d.call cmd).2) compliant
            simp only [Device.call_resp, Device.call_pos, Device.call_sent] at h1 h2 h3 h4
            refine ⟨?_, ?_, ?_, ?_⟩ <;>
              simp [scpiLoop, Device.call_fst, Device.call_resp, Device.call_pos,
                Device.call_sent, hres, hq, h1, h2, h3, h4,
                scpiCompliantFrom, isSuccOutcome, isOkOutcome] <;>
              omega
      · cases hres : d.resp d.pos with
        | ok s =>
            obtain ⟨h1, h2, h3, h4⟩ := ih ((d.call cmd).2) (compliant + 1)
            simp only [Device.call_resp, Device.call_pos, Device.call_sent] at h1 h2 h3 h4
            refine ⟨?_, ?_, ?_, ?_⟩ <;>
              simp [scpiLoop, Device.call_fst, Device.call_resp, Device.call_pos,
                Device.call_sent, hres, hq, h1, h2, h3, h4,
                scpiCompliantFrom, isSuccOutcome, isOkOutcome] <;>
              omega
        | error e =>
            obtain ⟨h1, h2, h3, h4⟩ := ih ((d.call cmd).2) compliant
            simp only [Device.call_resp, Device.call_pos, Device.call_sent] at h1 h2 h3 h4
            refine ⟨?_, ?_, ?_, ?_⟩ <;>
              simp [scpiLoop, Device.call_fst, Device.call_resp, Device.call_pos,
                Device.call_sent, hres, hq, h1, h2, h3, h4,
                scpiCompliantFrom, isSuccOutcome, isOkOutcome] <;>
              omega

/-- The error-drain loop realises the declarative drain and consumes at
most `n` outcomes; the oracle itself is unchanged. -/
theorem drainErrors_spec (n : Nat) : ∀ d : Device,
    (drainErrors d n).1 = errQueueDrain d.resp d.pos n
    ∧ (drainErrors d n).2.pos ≤ d.pos + n
    ∧ (drainErrors d n).2.resp = d.resp := by
  induction n with
  | zero =>
      intro d
      simp [drainErrors, errQueueDrain]
  | succ n ih =>
      intro d
      cases hres : d.resp d.pos with
      | error e =>
          refine ⟨?_, ?_, ?_⟩ <;>
            simp [drainErrors, errQueueDrain, Device.call_fst, Device.call_resp,
              Device.call_pos, hres] <;> omega
      | ok s =>
          obtain ⟨h1, h2, h3⟩ := ih ((d.call "SYST:ERR?").2)
          simp only [Device.call_resp, Device.call_pos] at h1 h2 h3
          cases hp : (pyStartsWith (pyStrip s) "0," || pyStartsWith (pyStrip s) "+0,") <;>
            refine ⟨?_, ?_, ?_⟩ <;>
              simp [drainErrors, errQueueDrain, Device.call_fst, Device.call_resp,
                Device.call_pos, hres, hp, h1, h3] <;>
              omega


/-- The declarative drain collects at most `n` errors. -/
theorem errQueueDrain_length (resp : Nat → Outcome) :
    ∀ (n start : Nat), (errQueueDrain resp start n).length ≤ n := by
  intro n
  induction n with
  | zero => intro start; simp [errQueueDrain]
  | succ n ih =>
      intro start
      cases hres : resp start with
      | error e => simp [errQueueDrain, hres]
      | ok s =>
          cases hp : (pyStartsWith (pyStrip s) "0," || pyStartsWith (pyStrip s) "+0,") <;>
            simp only [errQueueDrain, hres, hp, Bool.false_eq_true, if_false, if_true] <;>
            simp [ih]

/-- Stopping is sound: no collected error ever carries a no-error prefix. -/
theorem errQueueDrain_sound (resp : Nat → Outcome) :
    ∀ (n start : Nat) (e : String), e ∈ errQueueDrain resp start n →
      pyStartsWith e "0," = false ∧ pyStartsWith e "+0," = false := by
  intro n
  induction n with
  | zero => intro start e h; simp [errQueueDrain] at h
  | succ n ih =>
      intro start e h
      cases hres : resp start with
      | error e2 => simp [errQueueDrain, hres] at h
      | ok s =>
          cases hp : (pyStartsWith (pyStrip s) "0," || pyStartsWith (pyStrip s) "+0,") with
          | true => simp [errQueueDrain, hres, hp] at h
          | false =>
              simp only [errQueueDrain, hres, hp, Bool.false_eq_true, if_false,
                List.mem_cons] at h
              cases h with
              | inl hh =>
                  subst hh
                  have := Bool.or_eq_false_iff.mp hp
                  exact this
              | inr hh => exact ih (start + 1) e hh

/-- The run loop emits, for each queued check in order, exactly the
three-event block `test_started, test_completed, progress_updated`. -/
theorem runLoop_shape (total : Nat) (tests : List String) : ∀ (i : Nat) (d : Device),
    ∃ rs : List (TestResult × Nat),
      rs.length = tests.length
      ∧ (runLoop total i tests d).1
          = ((tests.zip rs).map (fun p => checkBlock p.1 p.2.1 p.2.2)).join := by
  induction tests with
  | nil =>
      intro i d
      exact ⟨[], rfl, rfl⟩
  | cons t rest ih =>
      intro i d
      obtain ⟨rs, hlen, hev⟩ := ih (i + 1) (execute_test t d).2
      refine ⟨((execute_test t d).1, (i + 1) * 100 / total) :: rs, by simp [hlen], ?_⟩
      simp [runLoop, checkBlock, hev]

/-- The run loop emits exactly one `test_completed` event per queued
check. -/
theorem runLoop_completed_count (total : Nat) (tests : List String) :
    ∀ (i : Nat) (d : Device),
      (runLoop total i tests d).1.countP isCompletedEvent = tests.length := by
  induction tests with
  | nil =>
      intro i d
      rfl
  | cons t rest ih =>
      intro i d
      simp [runLoop, List.countP_cons, isCompletedEvent, ih (i + 1) (execute_test t d).2]

/-- The progress values the run loop emits, in order: the `j`-th executed
check (at loop index `i + j`) yields `(i + j + 1) * 100 / total`. -/
theorem runLoop_progress (total : Nat) (tests : List String) : ∀ (i : Nat) (d : Device),
    progressEvents (runLoop total i tests d).1
      = (List.range tests.length).map (fun j => (i + j + 1) * 100 / total) := by
  induction tests with
  | nil =>
      intro i d
      rfl
  | cons t rest ih =>
      intro i d
      have hih := ih (i + 1) (execute_test t d).2
      simp only [progressEvents] at hih
      simp only [runLoop, progressEvents, List.filterMap_cons, List.length_cons,
        List.range_succ_eq_map, List.map_cons, List.map_map]
      rw [hih]
      simp only [Nat.add_zero]
      have htail : (List.range rest.length).map (fun j => (i + 1 + j + 1) * 100 / total)
          = (List.range rest.length).map ((fun j => (i + j + 1) * 100 / total) ∘ Nat.succ) := by
        refine List.map_congr_left ?_
        intro j hj
        simp only [Function.comp]
        have harg : i + 1 + j + 1 = i + Nat.succ j + 1 := by omega
        rw [harg]
      rw [htail]

/-- Every run that reaches the check loop emits exactly one
`test_completed` per queued check. -/
theorem run_ok_completed_count (tests : List String) (d : Device) :
    (run tests (Except.ok d)).events.countP isCompletedEvent = tests.length := by
  cases tests with
  | nil => rfl
  | cons t rest =>
      simpa [run] using runLoop_completed_count (t :: rest).length (t :: rest) 0 d

/-- C1: for every check identifier, every body behaviour and every link
state, the `_execute_test` boundary returns exactly one result (it is a
total function into `TestResult × Device`), and when a fault with text `e`
escapes the check body it returns `passed = false` with message
`Test failed: <cause>`, never propagating the fault to the run loop. -/
theorem execute_test_fault_boundary (test_name : String) (body : CheckBody)
    (d d1 : Device) (e : String) (h : body d = Except.error (e, d1)) :
    execute_body test_name body d
      = (TestResult.mk test_name false ("Test failed: " ++ e), d1) := by
  simp [execute_body, h]

/-- Witness for C1: a concrete body that faults with text `boom` is
converted by the boundary into the `Test failed: boom` result. -/
theorem execute_test_fault_boundary_witness :
    (fun d => Except.error ("boom", d) : CheckBody) dev0 = Except.error ("boom", dev0)
    ∧ execute_body "Self Test" (fun d => Except.error ("boom", d)) dev0
        = (TestResult.mk "Self Test" false "Test failed: boom", dev0) :=
  ⟨rfl, execute_test_fault_boundary "Self Test" (fun d => Except.error ("boom", d))
    dev0 dev0 "boom" rfl⟩

/-- C2: for every run whose link opens successfully, the event trace is
exactly a join of per-check blocks `test_started_i, test_completed_i,
progress_updated_i` in queue order — so `test_started i` precedes
`test_completed i`, `test_started (i+1)` never precedes
`test_completed i`, and exactly one `test_completed` is emitted per
executed check. -/
theorem run_events_interleaved (tests : List String) (d : Device) :
    ∃ rs : List (TestResult × Nat),
      rs.length = tests.length
      ∧ (run tests (Except.ok d)).events
          = ((tests.zip rs).map (fun p => checkBlock p.1 p.2.1 p.2.2)).join
      ∧ (run tests (Except.ok d)).events.countP isCompletedEvent = tests.length := by
  cases tests with
  | nil => exact ⟨[], rfl, rfl, rfl⟩
  | cons t rest =>
      obtain ⟨rs, hlen, hev⟩ := runLoop_shape (t :: rest).length (t :: rest) 0 d
      exact ⟨rs, hlen, by simpa [run] using hev, run_ok_completed_count (t :: rest) d⟩

/-- C3 (amended): after the `c`-th of `n` queued checks the emitted
progress value is `(c * 100) / n` — the truncation (floor) of the
completion percentage, not its nearest-integer rounding. -/
theorem run_progress_values (tests : List String) (d : Device) :
    progressEvents (run tests (Except.ok d)).events
      = (List.range tests.length).map (fun j => (j + 1) * 100 / tests.length) := by
  cases tests with
  | nil => rfl
  | cons t rest =>
      have h := runLoop_progress (t :: rest).length (t :: rest) 0 d
      simpa [run] using h

/-- Counterexample for C3 as frozen: in a run of 3 checks the second
progress event carries 66 (truncation of 200/3), while the claimed
nearest-integer rounding of `100 * 2 / 3` is 67. -/
theorem progress_rounding_counterexample :
    progressEvents (run ["A", "B", "C"] (Except.ok dev0)).events = [33, 66, 100]
    ∧ round ((100 * 2 : ℚ) / 3) = 67
    ∧ (66 : ℤ) ≠ 67 := by
  refine ⟨by decide, ?_, by decide⟩
  rw [round_eq]
  norm_num

/-- C4: if the queue is non-empty and opening the link fails with error
text `e`, no check executes (no `test_started` at all): the run emits
exactly one `test_completed` carrying the synthetic
`Connection / passed = false / Failed to connect: <e>` result and still
goes through the cleanup path. -/
theorem open_failure_single_result (tests : List String) (e : String)
    (h : tests ≠ []) :
    run tests (Except.error e)
      = RunOutput.mk
          [Event.test_completed
            (TestResult.mk "Connection" false ("Failed to connect: " ++ e))]
          false true
    ∧ (run tests (Except.error e)).events.countP isStartedEvent = 0 := by
  have hne : tests.isEmpty = false := by
    cases tests
    · simp at h
    · rfl
  constructor
  · simp [run, hne]
  · simp [run, hne, isStartedEvent]

/-- Witness for C4: a single-check queue whose link open fails with
`no device`. -/
theorem open_failure_single_result_witness :
    (["Connection Test"] : List String) ≠ []
    ∧ (run ["Connection Test"] (Except.error "no device")
        = RunOutput.mk
            [Event.test_completed
              (TestResult.mk "Connection" false "Failed to connect: no device")]
            false true
       ∧ (run ["Connection Test"] (Except.error "no device")).events.countP
           isStartedEvent = 0) :=
  ⟨by decide, open_failure_single_result ["Connection Test"] "no device" (by decide)⟩

/-- C9 (supporting theorem for the in-thread exit paths): for every
non-empty queue the run invokes `_cleanup`, whether the link opened or the
open failed — both branches funnel through the `finally`.  (An empty queue
returns before the `try`, and cancellation kills the worker thread
pre-emptively, outside this in-thread control flow.) -/
theorem run_cleanup_on_worker_paths (tests : List String) (link : Except String Device) :
    (run tests link).cleanup = !tests.isEmpty := by
  cases htests : tests.isEmpty <;> cases link <;> simp [run, htests]

/-- C10: a run with an empty queue returns immediately: it emits no
events, never opens the link and performs no cleanup. -/
theorem empty_queue_noop (link : Except String Device) :
    run [] link = RunOutput.mk [] false false := by
  rfl

/-- Counterexample for C5 as frozen: on a device whose `*CLS` clear-status
write faults, the check fails (`Failed: comm lost`) although zero error
responses were collected — the error queue was never even queried, as the
`sent` log shows.  The claimed "passes if and only if zero errors were
collected" therefore does not hold for every link behaviour. -/
theorem error_status_clear_fault_counterexample :
    (test_error_status devCLSfault).1
      = TestResult.mk "Error Status" false "Failed: comm lost"
    ∧ (test_error_status devCLSfault).2.sent = ["*CLS"] :=
  ⟨rfl, rfl⟩

/-- C5 (amended): provided the `*CLS` clear-status command succeeds, the
Error Status check passes exactly when the drain collected zero errors; the
drain collects at most 10 responses, never collects a no-error-prefixed
response, the failure message reports at most the first 3 collected errors,
and at most 11 calls are consumed in total.  (If the clear command faults,
the check fails with `Failed: <cause>` instead.) -/
theorem error_status_characterization (d : Device) (s : String)
    (h : d.resp d.pos = Except.ok s) :
    ((test_error_status d).1.passed = true ↔ errQueueDrain d.resp (d.pos + 1) 10 = [])
    ∧ (errQueueDrain d.resp (d.pos + 1) 10).length ≤ 10
    ∧ (∀ e ∈ errQueueDrain d.resp (d.pos + 1) 10,
        pyStartsWith e "0," = false ∧ pyStartsWith e "+0," = false)
    ∧ ((test_error_status d).1.passed = false →
        (test_error_status d).1.message
          = "Errors: " ++ String.intercalate "; "
              ((errQueueDrain d.resp (d.pos + 1) 10).take 3))
    ∧ (test_error_status d).2.pos ≤ d.pos + 11 := by
  obtain ⟨h1, h2, h3⟩ := drainErrors_spec 10 ((d.call "*CLS").2)
  simp only [Device.call_resp, Device.call_pos] at h1 h2 h3
  refine ⟨?_, errQueueDrain_length d.resp 10 (d.pos + 1),
    fun e he => errQueueDrain_sound d.resp 10 (d.pos + 1) e he, ?_, ?_⟩
  · simp only [test_error_status, Device.call_fst, h]
    rw [h1]
    simp
  · intro hpf
    simp only [test_error_status, Device.call_fst, h] at hpf ⊢
    rw [h1] at hpf ⊢
    cases hE : errQueueDrain d.resp (d.pos + 1) 10 with
    | nil => rw [hE] at hpf; simp at hpf
    | cons a l => simp
  · simp only [test_error_status, Device.call_fst, h]
    omega

/-- Witness for C5: on the device that always answers `+0,"No error"`, the
clear command succeeds and the amended characterisation holds. -/
theorem error_status_characterization_witness :
    devNoErr.resp devNoErr.pos = Except.ok "+0,\"No error\""
    ∧ (((test_error_status devNoErr).1.passed = true
          ↔ errQueueDrain devNoErr.resp (devNoErr.pos + 1) 10 = [])
       ∧ (errQueueDrain devNoErr.resp (devNoErr.pos + 1) 10).length ≤ 10
       ∧ (∀ e ∈ errQueueDrain devNoErr.resp (devNoErr.pos + 1) 10,
            pyStartsWith e "0," = false ∧ pyStartsWith e "+0," = false)
       ∧ ((test_error_status devNoErr).1.passed = false →
            (test_error_status devNoErr).1.message
              = "Errors: " ++ String.intercalate "; "
                  ((errQueueDrain devNoErr.resp (devNoErr.pos + 1) 10).take 3))
       ∧ (test_error_status devNoErr).2.pos ≤ devNoErr.pos + 11) :=
  ⟨rfl, error_status_characterization devNoErr "+0,\"No error\"" rfl⟩

/-- C6: the Communication Stability check issues exactly 10 queries cycling
through the fixed 4-command rotation (query `i` uses command `i mod 4`),
counts a query successful exactly when its reply is non-empty after
stripping (a faulting query counts as unsuccessful), and passes if and only
if at least 9 of the 10 queries succeed — the `successes/10 ≥ 0.9` boundary
is inclusive. -/
theorem communication_stability_characterization (d : Device) :
    (test_communication_stability d).2.sent = d.sent ++ cmdCycleFrom 0 10
    ∧ ((test_communication_stability d).1.passed = true
        ↔ 9 ≤ succCountFrom d.resp d.pos 10)
    ∧ (test_communication_stability d).1.test_name = "Communication Stability"
    ∧ (test_communication_stability d).2.pos = d.pos + 10
    ∧ cmdCycleFrom 0 10
        = ["*IDN?", "*STB?", "*ESR?", "*OPC?", "*IDN?", "*STB?", "*ESR?", "*OPC?",
           "*IDN?", "*STB?"] := by
  obtain ⟨h1, h2, h3, h4⟩ := stabLoop_spec 10 d 0 0
  rw [Nat.zero_add] at h1
  refine ⟨?_, ?_, ?_, ?_, by decide⟩
  · simpa [test_communication_stability] using h3
  · simp only [test_communication_stability]
    rw [h1, decide_eq_true_eq]
    generalize succCountFrom d.resp d.pos 10 = m
    rw [ge_iff_le, div_le_div_iff₀ (by norm_num : (0:ℚ) < 10) (by norm_num : (0:ℚ) < 10)]
    have hcast : ((9:ℚ) * 10 ≤ (m:ℚ) * 10) ↔ (((9 * 10 : ℕ) : ℚ) ≤ ((m * 10 : ℕ) : ℚ)) := by
      push_cast
      norm_num
    rw [hcast, Nat.cast_le]
    omega
  · rfl
  · simpa [test_communication_stability] using h2

/-- Counterexample for C7 as frozen: on a device where every query gets a
non-empty reply but both write commands (`*RST`, `*CLS`) fault, the code
counts only 4 of 6 commands compliant and the check fails, while the
claim's counting ("a write command is counted compliant unconditionally")
yields 6 of 6, a ratio of 1 ≥ 0.8, i.e. a pass.  A faulting write is
swallowed without incrementing the counter, so write compliance is
conditional on the write succeeding. -/
theorem scpi_write_fault_counterexample :
    (test_scpi_compliance devSCPI).1.passed = false
    ∧ claimC7compliant devSCPI.resp devSCPI.pos mandatory_commands = 6
    ∧ ((6 : ℚ) / 6 ≥ 4 / 5)
    ∧ ¬((4 : ℚ) / 6 ≥ 4 / 5) := by
  refine ⟨?_, by decide, by norm_num, by norm_num⟩
  have h1 := (scpiLoop_spec mandatory_commands devSCPI 0).1
  rw [Nat.zero_add] at h1
  have hcnt : scpiCompliantFrom devSCPI.resp devSCPI.pos mandatory_commands = 4 := by decide
  simp only [test_scpi_compliance]
  rw [h1, hcnt, decide_eq_false_iff_not]
  norm_num

/-- C7 (amended): the SCPI Compliance check sends exactly the 6 mandatory
commands in order; a query command is counted compliant exactly when its
reply is non-empty after stripping, a write command is counted compliant
exactly when the write call succeeds (a per-command fault is swallowed and
counted non-compliant), and the check passes if and only if at least 5 of
the 6 commands are compliant — the `compliant/6 ≥ 0.8` boundary, so 5 of 6
passes. -/
theorem scpi_compliance_characterization (d : Device) :
    (test_scpi_compliance d).2.sent = d.sent ++ mandatory_commands
    ∧ ((test_scpi_compliance d).1.passed = true
        ↔ 5 ≤ scpiCompliantFrom d.resp d.pos mandatory_commands)
    ∧ (test_scpi_compliance d).1.test_name = "SCPI Compliance"
    ∧ (test_scpi_compliance d).2.pos = d.pos + 6 := by
  obtain ⟨h1, h2, h3, h4⟩ := scpiLoop_spec mandatory_commands d 0
  rw [Nat.zero_add] at h1
  refine ⟨?_, ?_, ?_, ?_⟩
  · simpa [test_scpi_compliance] using h3
  · simp only [test_scpi_compliance]
    rw [h1, decide_eq_true_eq]
    generalize scpiCompliantFrom d.resp d.pos mandatory_commands = m
    rw [ge_iff_le, div_le_div_iff₀ (by norm_num : (0:ℚ) < 5) (by norm_num : (0:ℚ) < 6)]
    have hcast : ((4:ℚ) * 6 ≤ (m:ℚ) * 5) ↔ (((4 * 6 : ℕ) : ℚ) ≤ ((m * 5 : ℕ) : ℚ)) := by
      push_cast
      norm_num
    rw [hcast, Nat.cast_le]
    omega
  · rfl
  · simpa [test_scpi_compliance, mandatory_commands] using h2

/-- C8: executing any identifier outside the ten known check names yields
the `Unknown test` failed result with the requested name, without touching
the link, and the run carries on: a queue headed by the unknown identifier
still gets exactly one `test_completed` per queued check. -/
theorem unknown_test_reported_not_fatal (name : String) (rest : List String) (d : Device)
    (h : name ∉ knownTests) :
    execute_test name d = (TestResult.mk name false "Unknown test", d)
    ∧ (run (name :: rest) (Except.ok d)).events.countP isCompletedEvent
        = (name :: rest).length := by
  simp only [knownTests, List.mem_cons, List.not_mem_nil, or_false, not_or] at h
  obtain ⟨n1, n2, n3, n4, n5, n6, n7, n8, n9, n10⟩ := h
  constructor
  · simp [execute_test, check_body, execute_body, asBody,
      n1, n2, n3, n4, n5, n6, n7, n8, n9, n10]
  · exact run_ok_completed_count (name :: rest) d

/-- Witness for C8: the identifier `Frequency Sweep` is unknown; executing
it on the quiet device yields the `Unknown test` result, and a two-check
run headed by it emits two `test_completed` events. -/
theorem unknown_test_reported_not_fatal_witness :
    ("Frequency Sweep" ∉ knownTests)
    ∧ (execute_test "Frequency Sweep" dev0
        = (TestResult.mk "Frequency Sweep" false "Unknown test", dev0)
       ∧ (run ["Frequency Sweep", "Connection Test"] (Except.ok dev0)).events.countP
           isCompletedEvent = ["Frequency Sweep", "Connection Test"].length) :=
  ⟨by decide,
   unknown_test_reported_not_fatal "Frequency Sweep" ["Connection Test"] dev0 (by decide)⟩
